import Mathlib

/-!
Shallow embedding of the CommUnity application interaction engine:
the content store (posts with category filtering), the compose flow,
the AI assist gateway (text refinement, trend analysis, place search),
the view-state machine, and the chat session manager with streaming.

External effects (the generative backend, timers, geolocation) are
modelled as explicit parameters: a `configured` flag stands for the
presence of the API key, and backend outcomes are passed in as values
so that the engine's handling of success/failure is a pure function.
-/

namespace CommUnity

/-- Post categories, from `types.ts` (`PostCategory`).  `ALL` is the
filter pseudo-category value `'All'`. -/
inductive PostCategory
| ALL
| HELP
| IDEAS
| EVENTS
| MARKETPLACE
| SAFETY
deriving DecidableEq, Repr

/-- Alert levels `'info' | 'warning' | 'emergency'` from `types.ts`. -/
inductive AlertLevel
| info
| warning
| emergency
deriving DecidableEq, Repr

/-- `User` from `types.ts`. `isAdmin?` is an optional field. -/
structure User where
  id : String
  name : String
  avatar : String
  location : String
  reputation : Nat
  isVerified : Bool
  isAdmin : Option Bool
deriving DecidableEq, Repr

/-- `Post` from `types.ts`; optional fields become `Option`. -/
structure Post where
  id : String
  author : User
  category : PostCategory
  content : String
  image : Option String
  likes : Nat
  comments : Nat
  timestamp : String
  alertLevel : Option AlertLevel
  title : Option String
  price : Option String
  eventDate : Option String
deriving DecidableEq, Repr

/-- `CURRENT_USER` mock from `App.tsx`. -/
def CURRENT_USER : User :=
  { id := "u1", name := "Alex Johnson", avatar := "https://picsum.photos/100/100",
    location := "Greenwood District", reputation := 450, isVerified := true,
    isAdmin := some true }

/-- The three seed posts `INITIAL_POSTS` from `App.tsx`. -/
def INITIAL_POSTS : List Post :=
  [ { id := "p1",
      author := { id := "u2", name := "Sarah Connor", avatar := "https://picsum.photos/101/100",
                  location := "Greenwood", reputation := 320, isVerified := false, isAdmin := none },
      category := PostCategory.HELP,
      title := some "Emergency Plumber Needed",
      content := "Can anyone recommend a good plumber who is available on weekends? My kitchen sink is leaking badly!",
      image := none, likes := 5, comments := 8, timestamp := "2h ago",
      alertLevel := none, price := none, eventDate := none },
    { id := "p2",
      author := { id := "u3", name := "Mike Ross", avatar := "https://picsum.photos/102/100",
                  location := "Greenwood", reputation := 550, isVerified := true, isAdmin := none },
      category := PostCategory.SAFETY,
      title := some "Suspicious Activity at Park",
      content := "Suspicious activity reported near the park entrance. Please stay alert and keep gates locked.",
      image := none, likes := 42, comments := 12, timestamp := "5h ago",
      alertLevel := some AlertLevel.warning, price := none, eventDate := none },
    { id := "p3",
      author := { id := "u4", name := "Emily Clark", avatar := "https://picsum.photos/103/100",
                  location := "Greenwood", reputation := 120, isVerified := false, isAdmin := none },
      category := PostCategory.MARKETPLACE,
      title := some "Vintage Bicycle",
      price := some "$50",
      content := "Selling a vintage bicycle. Good condition, just needs new tires. $50 obo.",
      image := some "https://picsum.photos/400/250", likes := 10, comments := 2,
      timestamp := "1d ago", alertLevel := none, eventDate := none } ]

/-- Whitespace trimming from both ends, modelling JS
`String.prototype.trim` (and the `.trim()` on backend response text).
Implemented structurally over the character list so that the kernel can
evaluate it on concrete strings. -/
def jsTrim (s : String) : String :=
  String.mk (((s.data.dropWhile Char.isWhitespace).reverse.dropWhile Char.isWhitespace).reverse)

/-! ## Content store (`App.tsx`: `handleCreatePost`, `handleDeletePost`, `HomeView` feed filter) -/

/-- `handleCreatePost` prepends the new post: `setPosts(prev => [newPost, ...prev])`. -/
def handleCreatePost (newPost : Post) (posts : List Post) : List Post :=
  newPost :: posts

/-- `handleDeletePost`: behind a `window.confirm` gate, filters the post with
the given id out of the store.  The confirmation result is a parameter. -/
def handleDeletePost (confirmed : Bool) (postId : String) (posts : List Post) : List Post :=
  if confirmed then posts.filter (fun p => decide (p.id ≠ postId)) else posts

/-- The `HomeView` feed filter (`App.tsx` line 251):
`posts.filter(p => activeTab === PostCategory.ALL || p.category === activeTab)`. -/
def feedFilter (activeTab : PostCategory) (posts : List Post) : List Post :=
  posts.filter (fun p => decide (activeTab = PostCategory.ALL ∨ p.category = activeTab))

/-- One mutation of the content store: a create, or an admin delete
(carrying the outcome of the confirmation dialog). -/
inductive StoreOp
| create (p : Post)
| delete (confirmed : Bool) (id : String)
deriving DecidableEq, Repr

/-- Apply one store operation. -/
def applyOp (s : List Post) : StoreOp → List Post
| StoreOp.create p => handleCreatePost p s
| StoreOp.delete c i => handleDeletePost c i s

/-- Apply a sequence of store operations in order. -/
def applyOps (ops : List StoreOp) (s : List Post) : List Post :=
  ops.foldl applyOp s

/-! ## Compose flow (`CreatePostView` in `App.tsx`) -/

/-- The transient state of the post-creation screen. `selectedType` is
`null` until a category tile has been chosen. -/
structure ComposeState where
  draft : String
  title : String
  price : String
  eventDate : String
  urgency : AlertLevel
  generatedImage : Option String
  selectedType : Option PostCategory
deriving DecidableEq, Repr

/-- JS `s || undefined` on a string: the empty string is falsy. -/
def jsStrOrNone (s : String) : Option String :=
  if s = "" then none else some s

/-- JS `x || undefined` on a nullable string. -/
def jsOptStrOrNone : Option String → Option String
| none => none
| some s => jsStrOrNone s

/-- `handlePost` from `CreatePostView` (`App.tsx` lines 367-386):
`if (!selectedType || !draft) return;` then builds the new post.
The fresh id (`Date.now()` in the source) and the author are parameters.
Returns `none` when the guard rejects the submission. -/
def handlePost (st : ComposeState) (freshId : String) (author : User) : Option Post :=
  match st.selectedType with
  | none => none
  | some ty =>
    if st.draft = "" then none
    else some
      { id := freshId
        author := author
        category := ty
        title := jsStrOrNone st.title
        price := jsStrOrNone st.price
        eventDate := jsStrOrNone st.eventDate
        content := st.draft
        image := jsOptStrOrNone st.generatedImage
        likes := 0
        comments := 0
        timestamp := "Just now"
        alertLevel := if ty = PostCategory.SAFETY then some st.urgency else none }

/-- Submitting the compose screen: `handlePost` feeds `onSubmit`, which is
`handleCreatePost` in `App`.  When the guard rejects, nothing happens. -/
def submitPost (st : ComposeState) (freshId : String) (author : User)
    (store : List Post) : List Post :=
  match handlePost st freshId author with
  | none => store
  | some p => handleCreatePost p store

/-- One tile of the category chooser in `CreatePostView` (lines 388-395). -/
structure ComposeOption where
  label : String
  ty : PostCategory
deriving DecidableEq, Repr

/-- The `options` array of `CreatePostView`.  Note that the `General`
tile carries `PostCategory.ALL`. -/
def composeOptions : List ComposeOption :=
  [ ⟨"Help Request", PostCategory.HELP⟩,
    ⟨"Idea", PostCategory.IDEAS⟩,
    ⟨"Event", PostCategory.EVENTS⟩,
    ⟨"Marketplace", PostCategory.MARKETPLACE⟩,
    ⟨"Safety Alert", PostCategory.SAFETY⟩,
    ⟨"General", PostCategory.ALL⟩ ]

/-! ## AI assist gateway (`services/geminiService`) -/

/-- Outcome of one `generateContent` call: either the request threw, or it
succeeded with an optional `response.text`. -/
inductive BackendTextResult
| success (text : Option String)
| failure
deriving DecidableEq, Repr

/-- Fixed notice returned by `generatePostEnhancement` when the key is absent. -/
def apiKeyMissingMsg : String := "API Key missing. Please configure your environment."

/-- `generatePostEnhancement(draft, type)`: when unconfigured returns the
fixed key-missing notice; otherwise `response.text?.trim() || draft` on
success and `draft` when the call throws. -/
def generatePostEnhancement (configured : Bool) (backend : BackendTextResult)
    (draft ty : String) : String :=
  if configured then
    match backend with
    | BackendTextResult.failure => draft
    | BackendTextResult.success none => draft
    | BackendTextResult.success (some t) => if jsTrim t = "" then draft else jsTrim t
  else apiKeyMissingMsg

/-- `analyzeCommunityTrends(posts)`.  The returned `Bool` records whether
the backend was invoked.  The source has no empty-corpus branch: when
configured it always issues the request. -/
def analyzeCommunityTrends (configured : Bool) (backend : BackendTextResult)
    (posts : List String) : String × Bool :=
  if configured then
    match backend with
    | BackendTextResult.failure => ("Could not analyze trends.", true)
    | BackendTextResult.success none => ("No insights available.", true)
    | BackendTextResult.success (some t) =>
        (if jsTrim t = "" then "No insights available." else jsTrim t, true)
  else ("AI services unavailable.", false)

/-- The `AdminView` insight effect (`App.tsx` lines 1160-1165):
`if (posts.length > 0) analyzeCommunityTrends(posts.map(p => p.content))`
`else setInsight("No posts to analyze yet.")`. -/
def adminInsight (configured : Bool) (backend : BackendTextResult)
    (posts : List Post) : String × Bool :=
  if posts.length > 0 then
    analyzeCommunityTrends configured backend (posts.map Post.content)
  else ("No posts to analyze yet.", false)

/-- A latitude/longitude pair, with exact rational components. -/
structure LatLng where
  lat : Rat
  lng : Rat
deriving DecidableEq, Repr

/-- The fallback latitude 37.7749 from `searchMapPlaces`. -/
def fallbackLat : Rat := 377749 / 10000

/-- The fallback longitude -122.4194 from `searchMapPlaces`. -/
def fallbackLng : Rat := -1224194 / 10000

/-- The coordinate actually sent to the backend by `searchMapPlaces`:
`const lat = userLocation?.lat || 37.7749;`
`const lng = userLocation?.lng || -122.4194;`
JS `||` substitutes the fallback when the component is absent or falsy
(a numeric component is falsy exactly when it is zero, NaN aside). -/
def requestLatLng (userLocation : Option LatLng) : LatLng :=
  { lat := match userLocation with
           | none => fallbackLat
           | some loc => if loc.lat = 0 then fallbackLat else loc.lat
    lng := match userLocation with
           | none => fallbackLng
           | some loc => if loc.lng = 0 then fallbackLng else loc.lng }

/-- Outcome of the grounded map-search call: optional `response.text` and
optional grounding chunks (modelled as payload strings). -/
inductive SearchBackend
| success (text : Option String) (chunks : Option (List String))
| failure
deriving DecidableEq, Repr

/-- Result of `searchMapPlaces`: narrative text, grounding chunks, and the
coordinate sent with the request (`none` when no request was issued). -/
structure SearchResult where
  text : String
  chunks : List String
  request : Option LatLng
deriving DecidableEq, Repr

/-- `searchMapPlaces(query, userLocation?)` from `services/geminiService`. -/
def searchMapPlaces (configured : Bool) (backend : SearchBackend)
    (query : String) (userLocation : Option LatLng) : SearchResult :=
  if configured then
    let req := requestLatLng userLocation
    match backend with
    | SearchBackend.failure =>
        { text := "Could not perform search at this time.", chunks := [], request := some req }
    | SearchBackend.success t cs =>
        { text := match t with
                  | none => "No results found."
                  | some s => if s = "" then "No results found." else s
          chunks := cs.getD []
          request := some req }
  else { text := "AI service unavailable. Please check API Key.", chunks := [], request := none }

/-! ## View-state machine (`App.tsx`: `App`, `renderView`) -/

/-- `ViewState` from `types.ts`. -/
inductive ViewState
| SPLASH
| ONBOARDING
| AUTH_LOGIN
| AUTH_SIGNUP
| AUTH_VERIFY
| HOME
| MAP
| CHATS
| CHAT_DETAIL
| PROFILE
| MARKETPLACE
| ADMIN
| CREATE_POST
deriving DecidableEq, Repr

/-- Which concrete screen `renderView` renders; the chat detail screen
carries the chat it shows. -/
inductive RenderedView
| splash
| onboarding
| auth
| home
| createPost
| mapScreen
| marketplace
| chatsList
| chatDetail (chatId : String)
| profile
| admin
deriving DecidableEq, Repr

/-- JS truthiness of the nullable `activeChatId` string: `null` and the
empty string are falsy. -/
def isTruthyId : Option String → Bool
| none => false
| some s => decide (s ≠ "")

/-- The `renderView` switch (`App.tsx` lines 1262-1290).  For
`CHAT_DETAIL`: `activeChatId ? <ChatDetailView chatId={activeChatId}/> :
<ChatsView/>`.  `AUTH_VERIFY` hits the `default` arm, which renders home. -/
def renderView (view : ViewState) (activeChatId : Option String) : RenderedView :=
  match view with
  | ViewState.SPLASH => RenderedView.splash
  | ViewState.ONBOARDING => RenderedView.onboarding
  | ViewState.AUTH_LOGIN => RenderedView.auth
  | ViewState.AUTH_SIGNUP => RenderedView.auth
  | ViewState.HOME => RenderedView.home
  | ViewState.CREATE_POST => RenderedView.createPost
  | ViewState.MAP => RenderedView.mapScreen
  | ViewState.MARKETPLACE => RenderedView.marketplace
  | ViewState.CHATS => RenderedView.chatsList
  | ViewState.CHAT_DETAIL =>
      match activeChatId with
      | some c => if c = "" then RenderedView.chatsList else RenderedView.chatDetail c
      | none => RenderedView.chatsList
  | ViewState.PROFILE => RenderedView.profile
  | ViewState.ADMIN => RenderedView.admin
  | ViewState.AUTH_VERIFY => RenderedView.home

/-- The navigation-relevant slice of the top-level `App` state. -/
structure AppState where
  view : ViewState
  posts : List Post
  activeChatId : Option String
  isDarkMode : Bool
deriving DecidableEq, Repr

/-- `handleSelectChat`: stores the chat id, then moves to `CHAT_DETAIL`. -/
def handleSelectChat (chatId : String) (s : AppState) : AppState :=
  { s with activeChatId := some chatId, view := ViewState.CHAT_DETAIL }

/-! ## Chat session manager (`ChatDetailView` in `App.tsx`) -/

/-- Message sender roles from the `Message` interface in `App.tsx`. -/
inductive Sender
| user
| other
| ai
deriving DecidableEq, Repr

/-- One chat message; the `Date` timestamp is modelled as a tick count. -/
structure Message where
  id : String
  sender : Sender
  text : String
  timestamp : Nat
deriving DecidableEq, Repr

/-- The state of one `ChatDetailView` instance.  `chatSession` records
whether a live backend session handle exists (`setChatSession(chat)`);
`isAi` is `chatId === 'ai-assistant'`. -/
structure ChatState where
  messages : List Message
  input : String
  isTyping : Bool
  chatSession : Bool
  isAi : Bool
deriving DecidableEq, Repr

/-- `chatId === 'ai-assistant'`. -/
def isAiChat (chatId : String) : Bool := decide (chatId = "ai-assistant")

/-- The greeting seeded into a configured AI session. -/
def aiGreetingText : String :=
  "Hello! I\x27m here to help you with anything related to our community. What can I do for you?"

/-- The seed message of an unconfigured AI session. -/
def aiUnavailableText : String := "AI Service Unavailable (Missing Key)"

/-- The terminal message appended when the stream errors. -/
def troubleMsgText : String := "Sorry, I\x27m having trouble connecting right now."

/-- Session initialisation (`App.tsx` lines 850-875): an AI chat with the
key present gets a live session and the greeting; without the key it gets
the unavailable notice and no session; any other chat gets the static
mock transcript and no session. -/
def initChat (chatId : String) (configured : Bool) (now : Nat) : ChatState :=
  if isAiChat chatId then
    if configured then
      { messages := [⟨"init", Sender.ai, aiGreetingText, now⟩],
        input := "", isTyping := false, chatSession := true, isAi := true }
    else
      { messages := [⟨"err", Sender.ai, aiUnavailableText, now⟩],
        input := "", isTyping := false, chatSession := false, isAi := true }
  else
    { messages := [⟨"1", Sender.other, "Did anyone see the red car?", now - 100⟩,
                   ⟨"2", Sender.user, "No, when was this?", now - 50⟩,
                   ⟨"3", Sender.other, "About 20 mins ago.", now⟩],
      input := "", isTyping := false, chatSession := false, isAi := false }

/-- What the response stream does during one send: the initial
`sendMessageStream` call throws, or a stream is obtained that yields the
given chunk texts (`chunk.text` may be absent) and then either ends
normally or raises mid-iteration. -/
inductive StreamOutcome
| initError
| stream (chunks : List (Option String)) (errored : Bool)
deriving DecidableEq, Repr

/-- One iteration of the chunk loop, carrying `(fullText, messages)`:
`if (c.text) { fullText += c.text; setMessages(prev => prev.map(m =>`
`m.id === responseId ? { ...m, text: fullText } : m)); }`.
JS truthiness of `c.text` skips absent and empty chunks. -/
def chunkStep (responseId : String) (st : String × List Message)
    (c : Option String) : String × List Message :=
  match c with
  | none => st
  | some t =>
    if t = "" then st
    else
      let full := st.1 ++ t
      (full, st.2.map (fun m => if m.id = responseId then { m with text := full } else m))

/-- The text a chunk contributes (absent chunks contribute nothing). -/
def chunkPiece : Option String → String
| none => ""
| some t => t

/-- The full text accumulated from a chunk sequence, in arrival order. -/
def streamedText (chunks : List (Option String)) : String :=
  chunks.foldl (fun acc c => acc ++ chunkPiece c) ""

/-- `handleSend` (`App.tsx` lines 877-914).  The fresh message ids
(`Date.now()`-derived in the source) and the clock are parameters, and the
stream outcome stands for the backend interaction.  Returns the new state
together with a flag recording whether `sendMessageStream` was invoked.

Empty/whitespace input is rejected.  Otherwise the user message is
appended and, for an AI chat with a live session, a placeholder assistant
message is appended and extended in place per chunk; a stream error
appends the terminal trouble message; `isTyping` ends `false` either way.
A non-AI chat gets the scripted mock reply; an AI chat without a session
falls through both branches. -/
def handleSend (st : ChatState) (userMsgId responseId mockReplyId : String)
    (now : Nat) (outcome : StreamOutcome) : ChatState × Bool :=
  if jsTrim st.input = "" then (st, false)
  else
    let userMsg : Message := ⟨userMsgId, Sender.user, st.input, now⟩
    let base := { st with messages := st.messages ++ [userMsg], input := "" }
    if st.isAi && st.chatSession then
      match outcome with
      | StreamOutcome.initError =>
          ({ base with
              messages := base.messages ++ [⟨"err", Sender.ai, troubleMsgText, now⟩],
              isTyping := false }, true)
      | StreamOutcome.stream chunks errored =>
          let withPlaceholder := base.messages ++ [⟨responseId, Sender.ai, "", now⟩]
          let streamed := (chunks.foldl (chunkStep responseId) ("", withPlaceholder)).2
          let final :=
            if errored then streamed ++ [⟨"err", Sender.ai, troubleMsgText, now⟩]
            else streamed
          ({ base with messages := final, isTyping := false }, true)
    else if !st.isAi then
      ({ base with
          messages := base.messages ++ [⟨mockReplyId, Sender.other, "Got it, thanks!", now⟩] },
        false)
    else (base, false)

/-! ## Theorems -/

/-- C2: for every draft and category hint, when the backend is
unconfigured `refineText` returns the fixed unavailable notice (which is
not the draft "hello"), and when the backend is configured but the call
fails it returns exactly the original unmodified draft. -/
theorem refineText_degradation (draft ty : String) (backend : BackendTextResult) :
    generatePostEnhancement false backend draft ty = apiKeyMissingMsg
    ∧ generatePostEnhancement true BackendTextResult.failure draft ty = draft
    ∧ generatePostEnhancement false backend "hello" "Help" ≠ "hello" := by
  refine ⟨rfl, rfl, ?_⟩
  have h1 : generatePostEnhancement false backend "hello" "Help" = apiKeyMissingMsg := rfl
  rw [h1]
  decide

/-- C6 counterexample: `analyzeCommunityTrends` itself has no
empty-corpus branch — with a configured backend it invokes the backend
even on the empty corpus (second component `true`) and returns the
backend's text, not a fixed nothing-to-analyze message. -/
theorem analyzeTrends_empty_corpus_calls_backend :
    analyzeCommunityTrends true (BackendTextResult.success (some "Parking issues")) []
      = ("Parking issues", true)
    ∧ analyzeCommunityTrends false (BackendTextResult.success (some "Parking issues")) []
      = ("AI services unavailable.", false) := by
  constructor <;> rfl

/-- C6 (amended): the empty-corpus guard lives in the admin caller: with
an empty post list the admin flow returns the fixed "No posts to analyze
yet." without invoking the backend, while `analyzeCommunityTrends` itself,
when configured, always invokes the backend. -/
theorem adminInsight_empty_guard (configured : Bool) (backend : BackendTextResult) :
    adminInsight configured backend [] = ("No posts to analyze yet.", false)
    ∧ (analyzeCommunityTrends true backend []).2 = true := by
  constructor
  · rfl
  · cases backend with
    | failure => rfl
    | success t => cases t <;> rfl

/-- C10: `searchMapPlaces` substitutes the fallback coordinate component
(37.7749, -122.4194) not only when the coordinates are omitted but also,
component-wise, whenever a supplied latitude or longitude equals 0,
because the `||` defaulting tests falsiness; nonzero components pass
through unchanged. -/
theorem searchPlaces_falsy_defaulting (backend : SearchBackend) (q : String)
    (lat lng : Rat) :
    fallbackLat = 377749 / 10000 ∧ fallbackLng = -1224194 / 10000
    ∧ (searchMapPlaces true backend q none).request = some ⟨fallbackLat, fallbackLng⟩
    ∧ (searchMapPlaces true backend q (some ⟨0, lng⟩)).request
        = some ⟨fallbackLat, if lng = 0 then fallbackLng else lng⟩
    ∧ (searchMapPlaces true backend q (some ⟨lat, 0⟩)).request
        = some ⟨if lat = 0 then fallbackLat else lat, fallbackLng⟩
    ∧ (lat ≠ 0 → lng ≠ 0 →
        (searchMapPlaces true backend q (some ⟨lat, lng⟩)).request = some ⟨lat, lng⟩) := by
  have hreq : ∀ loc, (searchMapPlaces true backend q loc).request = some (requestLatLng loc) := by
    intro loc
    cases backend <;> rfl
  refine ⟨rfl, rfl, ?_, ?_, ?_, ?_⟩
  · rw [hreq]; rfl
  · rw [hreq]; simp [requestLatLng]
  · rw [hreq]; simp [requestLatLng]
  · intro hlat hlng
    rw [hreq]
    simp [requestLatLng, hlat, hlng]

/-- C10 witness: a caller at the concrete nonzero coordinate (1, 2) has
its coordinate passed through unchanged. -/
theorem searchPlaces_falsy_defaulting_witness :
    (1 : Rat) ≠ 0 ∧ (2 : Rat) ≠ 0
    ∧ (searchMapPlaces true SearchBackend.failure "parks" (some ⟨1, 2⟩)).request
        = some ⟨1, 2⟩ :=
  ⟨by norm_num, by norm_num,
   (searchPlaces_falsy_defaulting SearchBackend.failure "parks" 1 2).2.2.2.2.2
     (by norm_num) (by norm_num)⟩

/-- C9: rendering `CHAT_DETAIL` with no active chat identifier (or with
the falsy empty-string identifier) resolves to the chats list, and the
chat-detail screen is only ever rendered when the active chat identifier
is that non-null id. -/
theorem chatDetail_requires_chat_id :
    renderView ViewState.CHAT_DETAIL none = RenderedView.chatsList
    ∧ renderView ViewState.CHAT_DETAIL (some "") = RenderedView.chatsList
    ∧ ∀ v id c, renderView v id = RenderedView.chatDetail c → id = some c := by
  refine ⟨rfl, rfl, ?_⟩
  intro v id c h
  cases v
  case CHAT_DETAIL =>
    cases id with
    | none => simp [renderView] at h
    | some s =>
      simp only [renderView] at h
      split at h
      · simp at h
      · injection h with hc
        rw [hc]
  all_goals simp [renderView] at h

/-- C9 witness: with the concrete id "c1" selected, chat-detail renders
and the theorem recovers that id. -/
theorem chatDetail_requires_chat_id_witness :
    renderView ViewState.CHAT_DETAIL (some "c1") = RenderedView.chatDetail "c1"
    ∧ (some "c1" : Option String) = some "c1" :=
  ⟨by decide, chatDetail_requires_chat_id.2.2 ViewState.CHAT_DETAIL (some "c1") "c1" (by decide)⟩

/-- C3: after any sequence of create/delete operations, filtering the
feed by the "All" pseudo-category returns exactly the current store;
filtering by a concrete category returns exactly the posts whose category
matches, as an order-preserving sublist of the store; and a create always
places the new post at the head (newest-first). -/
theorem listByCategory_correct (ops : List StoreOp) (init : List Post) :
    feedFilter PostCategory.ALL (applyOps ops init) = applyOps ops init
    ∧ (∀ C, C ≠ PostCategory.ALL →
        List.Sublist (feedFilter C (applyOps ops init)) (applyOps ops init)
        ∧ ∀ p, p ∈ feedFilter C (applyOps ops init) ↔
            p ∈ applyOps ops init ∧ p.category = C)
    ∧ ∀ p, applyOps (ops ++ [StoreOp.create p]) init = p :: applyOps ops init := by
  refine ⟨?_, ?_, ?_⟩
  · apply List.filter_eq_self.mpr
    intro a _
    simp
  · intro C hC
    refine ⟨List.filter_sublist _, ?_⟩
    intro p
    simp [feedFilter, List.mem_filter, hC]
  · intro p
    simp [applyOps, List.foldl_append, applyOp, handleCreatePost]

/-- C3 witness: filtering the seed store by Help is an order-preserving
sublist of the store. -/
theorem listByCategory_correct_witness :
    PostCategory.HELP ≠ PostCategory.ALL
    ∧ List.Sublist (feedFilter PostCategory.HELP (applyOps [] INITIAL_POSTS))
        (applyOps [] INITIAL_POSTS) :=
  ⟨by decide, ((listByCategory_correct [] INITIAL_POSTS).2.1 PostCategory.HELP (by decide)).1⟩

/-- C4: submitting the compose flow with no category selected or an empty
body changes nothing; with a chosen category and a non-empty body the
built post is prepended to the store. -/
theorem compose_submit_guard (st : ComposeState) (freshId : String) (author : User)
    (store : List Post) :
    ((st.selectedType = none ∨ st.draft = "") → submitPost st freshId author store = store)
    ∧ (∀ c, st.selectedType = some c → st.draft ≠ "" →
        ∃ p, handlePost st freshId author = some p
          ∧ p.category = c ∧ p.content = st.draft
          ∧ submitPost st freshId author store = p :: store) := by
  constructor
  · rintro (h | h)
    · simp [submitPost, handlePost, h]
    · cases hsel : st.selectedType <;> simp [submitPost, handlePost, hsel, h]
  · intro c hc hd
    have hp : handlePost st freshId author = some
        { id := freshId, author := author, category := c,
          title := jsStrOrNone st.title, price := jsStrOrNone st.price,
          eventDate := jsStrOrNone st.eventDate, content := st.draft,
          image := jsOptStrOrNone st.generatedImage, likes := 0, comments := 0,
          timestamp := "Just now",
          alertLevel := if c = PostCategory.SAFETY then some st.urgency else none } := by
      simp [handlePost, hc, hd]
    exact ⟨_, hp, rfl, rfl, by simp [submitPost, hp, handleCreatePost]⟩

/-- A compose state with an empty body (category chosen). -/
def emptyBodyCompose : ComposeState :=
  { draft := "", title := "", price := "", eventDate := "",
    urgency := AlertLevel.info, generatedImage := none,
    selectedType := some PostCategory.HELP }

/-- C4 witness: submitting with an empty body leaves the seed store
unchanged. -/
theorem compose_submit_guard_witness :
    (emptyBodyCompose.selectedType = none ∨ emptyBodyCompose.draft = "")
    ∧ submitPost emptyBodyCompose "p9" CURRENT_USER INITIAL_POSTS = INITIAL_POSTS :=
  ⟨Or.inr rfl,
   (compose_submit_guard emptyBodyCompose "p9" CURRENT_USER INITIAL_POSTS).1 (Or.inr rfl)⟩

/-- The compose state reached by tapping the "General" tile and typing a
non-empty body. -/
def generalCompose : ComposeState :=
  { draft := "hi", title := "", price := "", eventDate := "",
    urgency := AlertLevel.info, generatedImage := none,
    selectedType := some PostCategory.ALL }

/-- C5 counterexample: the "General" tile of the compose chooser carries
the filter pseudo-category value (`PostCategory.ALL`), so submitting a
General post with a non-empty body stores a post whose category is "All"
— the claimed invariant fails for compose-producible posts. -/
theorem general_post_stores_all_category :
    composeOptions[5]? = some ⟨"General", PostCategory.ALL⟩
    ∧ generalCompose.selectedType = some PostCategory.ALL
    ∧ (submitPost generalCompose "p9" CURRENT_USER []).map Post.category
        = [PostCategory.ALL] := by
  refine ⟨rfl, rfl, rfl⟩

/-- C5 (amended): every seed post has a non-"All" category and carries an
alert level only when its category is Safety; every compose-produced post
carries an alert level only when its category is Safety, and has a
non-"All" category whenever the selected tile was not the "General" one
(whose value is the "All" pseudo-category). -/
theorem post_category_invariant (p : Post) (st : ComposeState) (freshId : String)
    (author : User) (q : Post) :
    (p ∈ INITIAL_POSTS →
      p.category ≠ PostCategory.ALL
      ∧ (p.alertLevel.isSome → p.category = PostCategory.SAFETY))
    ∧ (handlePost st freshId author = some q →
      (q.alertLevel.isSome → q.category = PostCategory.SAFETY)
      ∧ (st.selectedType ≠ some PostCategory.ALL → q.category ≠ PostCategory.ALL)) := by
  constructor
  · intro hp
    simp only [INITIAL_POSTS, List.mem_cons, List.not_mem_nil, or_false] at hp
    rcases hp with rfl | rfl | rfl <;> simp
  · intro hq
    cases hsel : st.selectedType with
    | none => simp [handlePost, hsel] at hq
    | some ty =>
      by_cases hd : st.draft = ""
      · simp [handlePost, hsel, hd] at hq
      · simp [handlePost, hsel, hd] at hq
        subst hq
        constructor
        · intro halert
          by_cases hs : ty = PostCategory.SAFETY
          · simpa using hs
          · simp [hs] at halert
        · intro hne hcat
          apply hne
          have hty : ty = PostCategory.ALL := by simpa using hcat
          rw [hty]

/-- A compose state with the Help tile chosen and a non-empty body. -/
def helpCompose : ComposeState :=
  { draft := "hi", title := "", price := "", eventDate := "",
    urgency := AlertLevel.info, generatedImage := none,
    selectedType := some PostCategory.HELP }

/-- The post produced by submitting `helpCompose`. -/
def helpPosted : Post :=
  { id := "p9", author := CURRENT_USER, category := PostCategory.HELP,
    title := none, price := none, eventDate := none, content := "hi",
    image := none, likes := 0, comments := 0, timestamp := "Just now",
    alertLevel := none }

/-- C5 witness: the Help compose state produces a post and the amended
invariant yields that its category is not "All". -/
theorem post_category_invariant_witness :
    handlePost helpCompose "p9" CURRENT_USER = some helpPosted
    ∧ helpPosted.category ≠ PostCategory.ALL :=
  ⟨rfl,
   ((post_category_invariant helpPosted helpCompose "p9" CURRENT_USER helpPosted).2
     rfl).2 (by decide)⟩

/-- Folding the chunk loop over a transcript whose last message is the
placeholder (and whose earlier messages have different ids) accumulates
every chunk's text, in arrival order, into that one message; no other
message changes and no message is added. -/
theorem chunkStep_fold (responseId : String) (chunks : List (Option String))
    (pre : List Message) (hpre : ∀ m ∈ pre, m.id ≠ responseId)
    (acc : String) (s : Sender) (ts : Nat) :
    chunks.foldl (chunkStep responseId) (acc, pre ++ [⟨responseId, s, acc, ts⟩]) =
      (chunks.foldl (fun a c => a ++ chunkPiece c) acc,
       pre ++ [⟨responseId, s, chunks.foldl (fun a c => a ++ chunkPiece c) acc, ts⟩]) := by
  induction chunks generalizing acc with
  | nil => simp
  | cons c cs ih =>
    cases c with
    | none =>
      simp only [List.foldl_cons, chunkStep, chunkPiece, String.append_empty]
      exact ih acc
    | some t =>
      by_cases ht : t = ""
      · subst ht
        simp only [List.foldl_cons, chunkStep, chunkPiece, if_pos rfl, String.append_empty]
        exact ih acc
      · have hmap : (pre ++ [(⟨responseId, s, acc, ts⟩ : Message)]).map
            (fun m => if m.id = responseId then { m with text := acc ++ t } else m)
            = pre ++ [⟨responseId, s, acc ++ t, ts⟩] := by
          rw [List.map_append]
          congr 1
          · calc pre.map (fun m => if m.id = responseId then { m with text := acc ++ t } else m)
                = pre.map id := List.map_congr_left (fun m hm => if_neg (hpre m hm))
              _ = pre := List.map_id pre
          · simp
        simp only [List.foldl_cons, chunkStep, chunkPiece, if_neg ht]
        rw [hmap]
        exact ih (acc ++ t)

/-- C1: a non-empty send into an AI-backed ready session appends the user
message and exactly one placeholder assistant message; every streamed
chunk's text lands in that same message (same id, arrival order), so its
final text is the in-order concatenation of the chunks — for the chunks
["Hel", "lo!"] that is "Hello!", one message, never two. -/
theorem ai_send_single_streamed_message
    (st : ChatState) (uid rid mid : String) (now : Nat) (chunks : List (Option String))
    (hin : jsTrim st.input ≠ "") (hai : st.isAi = true) (hsess : st.chatSession = true)
    (hready : st.isTyping = false)
    (hfresh : ∀ m ∈ st.messages, m.id ≠ rid) (huid : uid ≠ rid) :
    (handleSend st uid rid mid now (StreamOutcome.stream chunks false)).1.messages =
      st.messages ++ [⟨uid, Sender.user, st.input, now⟩,
                      ⟨rid, Sender.ai, streamedText chunks, now⟩]
    ∧ (handleSend st uid rid mid now (StreamOutcome.stream chunks false)).1.isTyping = false
    ∧ streamedText [some "Hel", some "lo!"] = "Hello!" := by
  have hpre : ∀ m ∈ st.messages ++ [(⟨uid, Sender.user, st.input, now⟩ : Message)],
      m.id ≠ rid := by
    intro m hm
    rcases List.mem_append.mp hm with h | h
    · exact hfresh m h
    · simp only [List.mem_singleton] at h
      subst h
      exact huid
  have hfold := chunkStep_fold rid chunks
    (st.messages ++ [⟨uid, Sender.user, st.input, now⟩]) hpre "" Sender.ai now
  obtain ⟨msgs, inp, typ, sess, ai⟩ := st
  simp only at hai hsess hready hfresh hin hpre hfold
  subst hai
  subst hsess
  subst hready
  simp only [List.append_assoc, List.singleton_append] at hfold
  refine ⟨?_, ?_, rfl⟩
  · simp [handleSend, hin, streamedText, hfold]
  · simp [handleSend, hin]

/-- An AI-backed session in the ready state (live handle, greeting
seeded) with the draft "Hi" typed. -/
def readyChat : ChatState :=
  { messages := [⟨"init", Sender.ai, aiGreetingText, 0⟩], input := "Hi",
    isTyping := false, chatSession := true, isAi := true }

/-- C1 witness: sending "Hi" while the backend streams ["Hel", "lo!"]
yields exactly one assistant message with final text "Hello!". -/
theorem ai_send_single_streamed_message_witness :
    (handleSend readyChat "10" "11" "12" 5
        (StreamOutcome.stream [some "Hel", some "lo!"] false)).1.messages =
      [⟨"init", Sender.ai, aiGreetingText, 0⟩, ⟨"10", Sender.user, "Hi", 5⟩,
       ⟨"11", Sender.ai, "Hello!", 5⟩] := by
  have h := ai_send_single_streamed_message readyChat "10" "11" "12" 5
    [some "Hel", some "lo!"] (by decide) rfl rfl rfl (by decide) (by decide)
  rw [h.1, h.2.2]
  rfl

/-- C7: if the stream errors after delivering some chunks, the transcript
keeps the partial text already accumulated in the placeholder, gains one
distinct terminal "having trouble connecting" assistant message directly
after it, and the session returns to ready (not typing). -/
theorem ai_send_stream_error_terminal
    (st : ChatState) (uid rid mid : String) (now : Nat) (chunks : List (Option String))
    (hin : jsTrim st.input ≠ "") (hai : st.isAi = true) (hsess : st.chatSession = true)
    (hready : st.isTyping = false)
    (hfresh : ∀ m ∈ st.messages, m.id ≠ rid) (huid : uid ≠ rid) :
    (handleSend st uid rid mid now (StreamOutcome.stream chunks true)).1.messages =
      st.messages ++ [⟨uid, Sender.user, st.input, now⟩,
                      ⟨rid, Sender.ai, streamedText chunks, now⟩,
                      ⟨"err", Sender.ai, troubleMsgText, now⟩]
    ∧ (handleSend st uid rid mid now (StreamOutcome.stream chunks true)).1.isTyping = false := by
  have hpre : ∀ m ∈ st.messages ++ [(⟨uid, Sender.user, st.input, now⟩ : Message)],
      m.id ≠ rid := by
    intro m hm
    rcases List.mem_append.mp hm with h | h
    · exact hfresh m h
    · simp only [List.mem_singleton] at h
      subst h
      exact huid
  have hfold := chunkStep_fold rid chunks
    (st.messages ++ [⟨uid, Sender.user, st.input, now⟩]) hpre "" Sender.ai now
  obtain ⟨msgs, inp, typ, sess, ai⟩ := st
  simp only at hai hsess hready hfresh hin hpre hfold
  subst hai
  subst hsess
  subst hready
  simp only [List.append_assoc, List.singleton_append] at hfold
  constructor
  · simp [handleSend, hin, streamedText, hfold]
  · simp [handleSend, hin]

/-- C7 witness: the stream emits "Par" and then throws; the assistant
message keeps the partial text "Par", the distinct trouble message
follows it, and the session is back to ready. -/
theorem ai_send_stream_error_terminal_witness :
    (handleSend readyChat "10" "11" "12" 5
        (StreamOutcome.stream [some "Par"] true)).1.messages =
      [⟨"init", Sender.ai, aiGreetingText, 0⟩, ⟨"10", Sender.user, "Hi", 5⟩,
       ⟨"11", Sender.ai, "Par", 5⟩, ⟨"err", Sender.ai, troubleMsgText, 5⟩]
    ∧ (handleSend readyChat "10" "11" "12" 5
        (StreamOutcome.stream [some "Par"] true)).1.isTyping = false := by
  have h := ai_send_stream_error_terminal readyChat "10" "11" "12" 5 [some "Par"]
    (by decide) rfl rfl rfl (by decide) (by decide)
  exact ⟨by rw [h.1]; rfl, h.2⟩

/-- The unavailable AI session (key absent at open: seed notice, no live
handle) with the draft "Hi" typed. -/
def unavailChat : ChatState :=
  { messages := [⟨"err", Sender.ai, aiUnavailableText, 0⟩], input := "Hi",
    isTyping := false, chatSession := false, isAi := true }

/-- C8 counterexample: sending "Hi" in an AI-backed session in the
unavailable state appends only the user message — no scripted or fallback
reply is produced (and no backend call is made), contrary to the claimed
single fallback reply. -/
theorem send_unavailable_appends_no_reply :
    (handleSend unavailChat "10" "11" "12" 5 (StreamOutcome.stream [] false)).1.messages =
      [⟨"err", Sender.ai, aiUnavailableText, 0⟩, ⟨"10", Sender.user, "Hi", 5⟩]
    ∧ (handleSend unavailChat "10" "11" "12" 5 (StreamOutcome.stream [] false)).2 = false := by
  exact ⟨rfl, rfl⟩

/-- C8 (amended): for non-empty input, a non-AI conversation send makes
no backend call and produces exactly one scripted reply after the user
message, while an AI-backed session in the unavailable state makes no
backend call and appends only the user message, producing no reply. -/
theorem send_no_session_fallback (st : ChatState) (uid rid mid : String) (now : Nat)
    (outcome : StreamOutcome) (hin : jsTrim st.input ≠ "") :
    (st.isAi = false →
      (handleSend st uid rid mid now outcome).1.messages =
        st.messages ++ [⟨uid, Sender.user, st.input, now⟩,
                        ⟨mid, Sender.other, "Got it, thanks!", now⟩]
      ∧ (handleSend st uid rid mid now outcome).2 = false)
    ∧ (st.isAi = true → st.chatSession = false →
      (handleSend st uid rid mid now outcome).1.messages =
        st.messages ++ [⟨uid, Sender.user, st.input, now⟩]
      ∧ (handleSend st uid rid mid now outcome).2 = false) := by
  obtain ⟨msgs, inp, typ, sess, ai⟩ := st
  simp only at hin ⊢
  constructor
  · intro hai
    subst hai
    constructor
    · simp [handleSend, if_neg hin]
    · simp [handleSend, if_neg hin]
  · intro hai hsess
    subst hai
    subst hsess
    constructor
    · simp [handleSend, if_neg hin]
    · simp [handleSend, if_neg hin]

/-- A non-AI conversation (mock transcript, no session) with the draft
"ok" typed. -/
def peerChat : ChatState :=
  { messages := [⟨"1", Sender.other, "Did anyone see the red car?", 0⟩], input := "ok",
    isTyping := false, chatSession := false, isAi := false }

/-- C8 amended-claim witness: a non-AI conversation send produces exactly
the user message plus one scripted reply, with no backend call. -/
theorem send_no_session_fallback_witness :
    (handleSend peerChat "10" "11" "12" 5 StreamOutcome.initError).1.messages =
      [⟨"1", Sender.other, "Did anyone see the red car?", 0⟩,
       ⟨"10", Sender.user, "ok", 5⟩, ⟨"12", Sender.other, "Got it, thanks!", 5⟩]
    ∧ (handleSend peerChat "10" "11" "12" 5 StreamOutcome.initError).2 = false := by
  have h := (send_no_session_fallback peerChat "10" "11" "12" 5 StreamOutcome.initError
    (by decide)).1 rfl
  exact ⟨by rw [h.1]; rfl, h.2⟩

